import Mathlib

/-!
Shallow embedding of the VIBE-CODE entitlement/token-ledger core:
the portal's `TokenService` (`app/services/token_service.py`),
`StripeService` (`app/services/stripe_service.py`), the token API
endpoint's action validation (`app/api/tokens.py`), and the desktop
client's `StatusChecker` (`aegis_app/core/status_checker.py`).

Python integers are modelled as `Int` (arbitrary precision, signed).
Database rows become Lean structures; the at-most-one Subscription row
for a user is an `Option Subscription`; the append-only token ledger is
a `List TokenLedger` in creation order.  Dictionaries returned by the
services become structures whose optional keys are `Option` fields.
Awaited database calls are modelled by passing the fetched rows in and
returning the mutated rows out.
-/

namespace Aegis

/-- Plan enum from `app/models/user.py` (`PlanType`). -/
inductive PlanType
  | FREE
  | PRO
  | LIFETIME
deriving DecidableEq, Repr

/-- Subscription status enum from `app/models/user.py` (`SubscriptionStatus`). -/
inductive SubStatus
  | TRIALING
  | ACTIVE
  | CANCELLED
  | EXPIRED
  | LIFETIME
deriving DecidableEq, Repr

/-- Token action enum from `app/models/user.py` (`TokenAction`). -/
inductive TokenAction
  | CREDIT
  | DEBIT
  | SIGNUP_BONUS
  | PURCHASE
  | VIBE_CHECK
  | CONTEXT_SYNC
  | AGENT_RELAY
deriving DecidableEq, Repr

/-- Wire value of a `TokenAction` (the Python str-enum's `.value`). -/
def TokenAction.value : TokenAction → String
  | .CREDIT => "credit"
  | .DEBIT => "debit"
  | .SIGNUP_BONUS => "signup_bonus"
  | .PURCHASE => "purchase"
  | .VIBE_CHECK => "vibe_check"
  | .CONTEXT_SYNC => "context_sync"
  | .AGENT_RELAY => "agent_relay"

/-- User row (`app/models/user.py`, class `User`); only the columns the
token and billing services read or write. -/
structure User where
  id : Nat
  email : String
  token_balance : Int
  lifetime_license : Bool
  stripe_customer_id : Option String
deriving DecidableEq, Repr

/-- Subscription row (`app/models/user.py`, class `Subscription`).
Billing-period timestamps are opaque integers. -/
structure Subscription where
  user_id : Nat
  plan : PlanType
  status : SubStatus
  stripe_subscription_id : Option String
  current_period_start : Option Int
  current_period_end : Option Int
  cancel_at_period_end : Bool
deriving DecidableEq, Repr

/-- Default column values used when `Subscription(user_id=...)` is
constructed with no other arguments (model defaults in `user.py`). -/
def Subscription.fresh (uid : Nat) : Subscription where
  user_id := uid
  plan := PlanType.FREE
  status := SubStatus.TRIALING
  stripe_subscription_id := none
  current_period_start := none
  current_period_end := none
  cancel_at_period_end := false

/-- Token ledger row (`app/models/user.py`, class `TokenLedger`). -/
structure TokenLedger where
  user_id : Nat
  action : TokenAction
  amount : Int
  balance_after : Int
  description : String
  project_id : Option String
deriving DecidableEq, Repr

/-- The settings fields the token service reads (`app/config.py`). -/
structure Settings where
  token_costs_vibe_check : Int
  token_costs_context_sync : Int
  token_costs_agent_relay : Int
  app_url : String
deriving Repr

/-- Defaults from `app/config.py` (`Settings`). -/
def defaultSettings : Settings where
  token_costs_vibe_check := 100
  token_costs_context_sync := 10
  token_costs_agent_relay := 5
  app_url := "https://aegissolutions.co.uk"

/-- The class attribute `TokenService.COSTS`: a dict keyed by the three
metered actions.  `none` models absence of the key. -/
def COSTS (st : Settings) : TokenAction → Option Int
  | .VIBE_CHECK => some st.token_costs_vibe_check
  | .CONTEXT_SYNC => some st.token_costs_context_sync
  | .AGENT_RELAY => some st.token_costs_agent_relay
  | _ => none

/-- The expression `self.COSTS.get(action, 0)` in `spend_tokens`. -/
def getCost (st : Settings) (a : TokenAction) : Int :=
  (COSTS st a).getD 0

/-- The dict returned by `TokenService.check_access`; keys that are only
present on some paths are `Option` fields. -/
structure AccessResult where
  allowed : Bool
  balance : Int
  plan : String
  status : String
  lifetimeLicense : Bool
  message : Option String := none
  upgradeUrl : Option String := none
deriving DecidableEq, Repr

/-- Shallow embedding of `TokenService.check_access`
(`token_service.py` lines 29-81).  The subscription row fetched by the
`select` is passed in as `sub`. -/
def check_access (st : Settings) (user : User) (sub : Option Subscription) :
    AccessResult :=
  if user.lifetime_license then
    { allowed := true
      balance := -1
      plan := "lifetime"
      status := "lifetime"
      lifetimeLicense := true }
  else
    let plan := match sub with
      | some s => s.plan
      | none => PlanType.FREE
    let status := match sub with
      | some s => s.status
      | none => SubStatus.TRIALING
    if plan = PlanType.PRO ∧ status = SubStatus.ACTIVE then
      { allowed := true
        balance := -1
        plan := "pro"
        status := "active"
        lifetimeLicense := false }
    else if user.token_balance ≤ 0 then
      { allowed := false
        balance := 0
        plan := "free"
        status := "expired"
        lifetimeLicense := false
        message := some "Free trial expired. Upgrade to continue."
        upgradeUrl := some (st.app_url ++ "/billing") }
    else
      { allowed := true
        balance := user.token_balance
        plan := "free"
        status := "trialing"
        lifetimeLicense := false }

/-- The dict returned by `TokenService.spend_tokens`; keys that appear
only on some return paths are `Option` fields. -/
structure SpendResult where
  success : Bool
  tokensUsed : Option Int := none
  balance : Int
  plan : Option String := none
  error : Option String := none
  required : Option Int := none
  message : Option String := none
  upgradeUrl : Option String := none
deriving DecidableEq, Repr

/-- Shallow embedding of `TokenService.spend_tokens`
(`token_service.py` lines 83-150).  The user row and ledger are passed
in and the (possibly mutated) user row and ledger are returned
alongside the result dict; the commit makes both mutations visible
together, which the single returned pair models. -/
def spend_tokens (st : Settings) (user : User) (sub : Option Subscription)
    (ledger : List TokenLedger) (action : TokenAction)
    (project_id : Option String) :
    SpendResult × User × List TokenLedger :=
  let access := check_access st user sub
  if ¬ access.allowed then
    ({ success := false
       error := some "insufficient_tokens"
       balance := 0
       message := some (access.message.getD "No tokens remaining")
       upgradeUrl := access.upgradeUrl }, user, ledger)
  else if access.balance = -1 then
    ({ success := true
       tokensUsed := some 0
       balance := -1
       plan := some access.plan }, user, ledger)
  else
    let cost := getCost st action
    if cost > user.token_balance then
      ({ success := false
         error := some "insufficient_tokens"
         balance := user.token_balance
         required := some cost
         message := some ("This action requires " ++ toString cost ++
           " tokens but you only have " ++ toString user.token_balance)
         upgradeUrl := some (st.app_url ++ "/billing") }, user, ledger)
    else
      let new_balance := user.token_balance - cost
      let user' : User := { user with token_balance := new_balance }
      let entry : TokenLedger :=
        { user_id := user.id
          action := action
          amount := -cost
          balance_after := new_balance
          description := "Spent " ++ toString cost ++ " tokens on " ++
            action.value
          project_id := project_id }
      ({ success := true
         tokensUsed := some cost
         balance := new_balance
         plan := some "free" }, user', ledger ++ [entry])

/-- The dict returned by `TokenService.credit_tokens`. -/
structure CreditResult where
  success : Bool
  tokensAdded : Int
  balance : Int
deriving DecidableEq, Repr

/-- Shallow embedding of `TokenService.credit_tokens`
(`token_service.py` lines 152-180). -/
def credit_tokens (user : User) (ledger : List TokenLedger) (amount : Int)
    (action : TokenAction) (description : Option String) :
    CreditResult × User × List TokenLedger :=
  let new_balance := user.token_balance + amount
  let user' : User := { user with token_balance := new_balance }
  let entry : TokenLedger :=
    { user_id := user.id
      action := action
      amount := amount
      balance_after := new_balance
      description := description.getD
        ("Credited " ++ toString amount ++ " tokens")
      project_id := none }
  ({ success := true
     tokensAdded := amount
     balance := new_balance }, user', ledger ++ [entry])

/-- Action validation in the `/api/tokens/spend` endpoint
(`app/api/tokens.py` lines 118-127): `TokenAction(request.action)`
succeeds exactly when the string is one of the seven enum values. -/
def parseAction (s : String) : Option TokenAction :=
  if s = "credit" then some TokenAction.CREDIT
  else if s = "debit" then some TokenAction.DEBIT
  else if s = "signup_bonus" then some TokenAction.SIGNUP_BONUS
  else if s = "purchase" then some TokenAction.PURCHASE
  else if s = "vibe_check" then some TokenAction.VIBE_CHECK
  else if s = "context_sync" then some TokenAction.CONTEXT_SYNC
  else if s = "agent_relay" then some TokenAction.AGENT_RELAY
  else none

/-- A user is in free-tier context when the lifetime flag is off and no
pro-and-active subscription row exists: the situation in which
`check_access` falls through to the balance-gated free tier. -/
def freeContext (u : User) (sub : Option Subscription) : Prop :=
  u.lifetime_license = false ∧
    ∀ s, sub = some s → ¬(s.plan = PlanType.PRO ∧ s.status = SubStatus.ACTIVE)

/-- Total cost of the successful spends in a list of spend results
(each successful metered spend reports its cost as `tokensUsed`). -/
def spentTotal : List SpendResult → Int
  | [] => 0
  | r :: rs => (if r.success then r.tokensUsed.getD 0 else 0) + spentTotal rs

/-- Run a sequence of `spend_tokens` calls for one user, threading the
user row and ledger through and collecting each call's result dict. -/
def spendMany (st : Settings) (sub : Option Subscription) :
    User → List TokenLedger → List (TokenAction × Option String) →
    User × List TokenLedger × List SpendResult
  | u, l, [] => (u, l, [])
  | u, l, (a, p) :: rest =>
    let res := spend_tokens st u sub l a p
    let next := spendMany st sub res.2.1 res.2.2 rest
    (next.1, next.2.1, res.1 :: next.2.2)

/-- One ledger-mutating operation: a `spend_tokens` call or a
`credit_tokens` call. -/
inductive LedgerOp
  | spendOp (action : TokenAction) (project_id : Option String)
  | creditOp (amount : Int) (action : TokenAction)
      (description : Option String)
deriving DecidableEq, Repr

/-- Run a sequence of spend/credit operations for one user, threading
the user row and ledger through. -/
def runOps (st : Settings) (sub : Option Subscription) :
    User → List TokenLedger → List LedgerOp → User × List TokenLedger
  | u, l, [] => (u, l)
  | u, l, LedgerOp.spendOp a p :: rest =>
    let res := spend_tokens st u sub l a p
    runOps st sub res.2.1 res.2.2 rest
  | u, l, LedgerOp.creditOp amt a d :: rest =>
    let res := credit_tokens u l amt a d
    runOps st sub res.2.1 res.2.2 rest

/-- The `balance_after` of the most recent ledger entry, or the given
starting balance when the ledger is empty. -/
def lastBalanceAfter (b : Int) (l : List TokenLedger) : Int :=
  l.getLast?.elim b TokenLedger.balance_after

/-- The ledger forms a running sum starting at balance `b`: each entry
records `balance_after` = previous balance plus its own amount. -/
def runningFrom : Int → List TokenLedger → Prop
  | _, [] => True
  | b, e :: es => e.balance_after = b + e.amount ∧ runningFrom e.balance_after es

/-- Adjacent-entry consistency: every entry's `balance_after` equals the
previous entry's `balance_after` plus this entry's `amount`. -/
def chainConsistent (l : List TokenLedger) : Prop :=
  List.Chain' (fun a b => b.balance_after = a.balance_after + b.amount) l

/-- Python truthiness of an optional string (`if not x` / `if x`):
`None` and the empty string are falsy. -/
def optStrTruthy : Option String → Bool
  | none => false
  | some s => s ≠ ""

/-- The fields of a Stripe checkout session that
`StripeService.handle_checkout_completed` reads: the metadata
(`user_id`, `plan`), `session.subscription`, and — because the handler
calls `stripe.Subscription.retrieve(session.subscription)` — the billing
period the provider reports for that subscription.  Replaying the same
event means the same field values, the retrieved period included. -/
structure CheckoutSession where
  user_id : Nat
  plan : String
  subscription : Option String
  retrieved_period_start : Int
  retrieved_period_end : Int
deriving DecidableEq, Repr

/-- Shallow embedding of `StripeService.handle_checkout_completed`
(`stripe_service.py` lines 84-131).  The state is the user row fetched
for `ev.user_id` and that user's subscription row (absent rows are
`none`); the returned state is what the commit persists.  A zero
`user_id` (the metadata default) or a missing user leaves the state
unchanged, as in the source. -/
def handle_checkout_completed (ev : CheckoutSession)
    (state : Option User × Option Subscription) :
    Option User × Option Subscription :=
  if ev.user_id = 0 then state
  else
    match state.1 with
    | none => state
    | some user =>
      let sub0 := match state.2 with
        | some s => s
        | none => Subscription.fresh ev.user_id
      if ev.plan = "lifetime" then
        (some { user with lifetime_license := true },
         some { sub0 with
                  plan := PlanType.LIFETIME
                  status := SubStatus.LIFETIME })
      else
        let s1 : Subscription :=
          { sub0 with
              plan := PlanType.PRO
              status := SubStatus.ACTIVE
              stripe_subscription_id := ev.subscription }
        let s2 : Subscription :=
          if optStrTruthy ev.subscription then
            { s1 with
                current_period_start := some ev.retrieved_period_start
                current_period_end := some ev.retrieved_period_end }
          else s1
        (some user, some s2)

/-- The fields of a Stripe subscription object that
`StripeService.handle_subscription_updated` reads. -/
structure StripeSubEvent where
  id : String
  status : String
  current_period_start : Int
  current_period_end : Int
  cancel_at_period_end : Bool
deriving DecidableEq, Repr

/-- The `status_map.get(stripe_subscription.status, EXPIRED)` lookup in
`handle_subscription_updated` (`stripe_service.py` lines 149-159). -/
def statusMap (s : String) : SubStatus :=
  if s = "active" then SubStatus.ACTIVE
  else if s = "trialing" then SubStatus.TRIALING
  else if s = "canceled" then SubStatus.CANCELLED
  else if s = "past_due" then SubStatus.EXPIRED
  else if s = "unpaid" then SubStatus.EXPIRED
  else SubStatus.EXPIRED

/-- Shallow embedding of `StripeService.handle_subscription_updated`
(`stripe_service.py` lines 133-167).  `sub` is the row found by
`stripe_subscription_id`; a missing row is a logged no-op. -/
def handle_subscription_updated (ev : StripeSubEvent)
    (sub : Option Subscription) : Option Subscription :=
  match sub with
  | none => none
  | some s =>
    some { s with
             status := statusMap ev.status
             current_period_start := some ev.current_period_start
             current_period_end := some ev.current_period_end
             cancel_at_period_end := ev.cancel_at_period_end }

end Aegis

namespace Desktop

/-- Desktop plan enum (`aegis_app/core/status_checker.py`, `PlanType`). -/
inductive PlanType
  | FREE
  | PRO
  | LIFETIME
  | UNKNOWN
deriving DecidableEq, Repr

/-- Desktop state enum (`status_checker.py`, `SubscriptionState`). -/
inductive SubscriptionState
  | ACTIVE
  | TRIALING
  | EXPIRED
  | CANCELLED
  | LIFETIME
  | UNKNOWN
deriving DecidableEq, Repr

/-- The `SubscriptionStatus` dataclass (`status_checker.py` lines
35-87). -/
structure SubscriptionStatus where
  is_valid : Bool
  plan : PlanType
  state : SubscriptionState
  token_balance : Int
  is_lifetime : Bool
  user_email : Option String := none
  expires_at : Option String := none
  error_message : Option String := none
deriving DecidableEq, Repr

/-- The `can_use_app` property (`status_checker.py` lines 47-56). -/
def SubscriptionStatus.can_use_app (s : SubscriptionStatus) : Bool :=
  if s.is_lifetime then true
  else if s.state = SubscriptionState.ACTIVE ∨
      s.state = SubscriptionState.TRIALING then true
  else if s.plan = PlanType.FREE ∧ s.token_balance > 0 then true
  else false

/-- The `SubscriptionStatus.expired` factory (lines 65-75). -/
def SubscriptionStatus.expired (message : String) : SubscriptionStatus where
  is_valid := false
  plan := PlanType.FREE
  state := SubscriptionState.EXPIRED
  token_balance := 0
  is_lifetime := false
  error_message := some message

/-- The `SubscriptionStatus.offline` factory (lines 77-87). -/
def SubscriptionStatus.offline : SubscriptionStatus where
  is_valid := true
  plan := PlanType.FREE
  state := SubscriptionState.UNKNOWN
  token_balance := 0
  is_lifetime := false
  error_message := some "Offline mode - limited functionality"

/-- The JSON body of a status response, with every key the parser
looks up optional. -/
structure StatusBody where
  plan : Option String := none
  status : Option String := none
  allowed : Option Bool := none
  lifetimeLicense : Option Bool := none
  balance : Option Int := none
  tokenBalance : Option Int := none
  email : Option String := none
  expiresAt : Option String := none
  message : Option String := none
deriving DecidableEq, Repr

/-- Outcome of the `requests.get` call in `check_status_sync`: either an
HTTP response (status code, whether `response.text` is non-empty, parsed
JSON body) or one of the caught exception kinds. -/
inductive TransportOutcome
  | response (code : Nat) (hasText : Bool) (body : StatusBody)
  | timeout
  | connectionError
  | requestError
deriving DecidableEq, Repr

/-- The value `PlanType(plan_str) if plan_str in values else FREE` in
`_parse_status_response`. -/
def planOfString (s : String) : PlanType :=
  if s = "free" then PlanType.FREE
  else if s = "pro" then PlanType.PRO
  else if s = "lifetime" then PlanType.LIFETIME
  else if s = "unknown" then PlanType.UNKNOWN
  else PlanType.FREE

/-- The value `SubscriptionState(state_str) if state_str in values else
UNKNOWN` in `_parse_status_response`. -/
def stateOfString (s : String) : SubscriptionState :=
  if s = "active" then SubscriptionState.ACTIVE
  else if s = "trialing" then SubscriptionState.TRIALING
  else if s = "expired" then SubscriptionState.EXPIRED
  else if s = "cancelled" then SubscriptionState.CANCELLED
  else if s = "lifetime" then SubscriptionState.LIFETIME
  else if s = "unknown" then SubscriptionState.UNKNOWN
  else SubscriptionState.UNKNOWN

/-- Shallow embedding of `StatusChecker._parse_status_response`
(`status_checker.py` lines 195-217). -/
def parse_status_response (data : StatusBody) : SubscriptionStatus :=
  let plan := planOfString (data.plan.getD "free").toLower
  let state := stateOfString (data.status.getD "unknown").toLower
  let is_lifetime := data.lifetimeLicense.getD false || plan = PlanType.LIFETIME
  { is_valid := data.allowed.getD true
    plan := plan
    state := if is_lifetime then SubscriptionState.LIFETIME else state
    token_balance := data.balance.getD (data.tokenBalance.getD 0)
    is_lifetime := is_lifetime
    user_email := data.email
    expires_at := data.expiresAt }

/-- Shallow embedding of `StatusChecker.check_status_sync`
(`status_checker.py` lines 139-193).  The stored user key and the
transport outcome of the single HTTP call are the inputs. -/
def check_status_sync (user_key : Option String)
    (outcome : TransportOutcome) : SubscriptionStatus :=
  if ¬ Aegis.optStrTruthy user_key then
    SubscriptionStatus.expired "No user key configured"
  else
    match outcome with
    | .response code hasText body =>
      if code = 200 then parse_status_response body
      else if code = 401 then SubscriptionStatus.expired "Invalid API key"
      else if code = 402 then
        let data := if hasText then body else {}
        { is_valid := false
          plan := PlanType.FREE
          state := SubscriptionState.EXPIRED
          token_balance := 0
          is_lifetime := false
          error_message := some (data.message.getD "Free trial expired") }
      else if code = 403 then SubscriptionStatus.expired "Access denied"
      else SubscriptionStatus.offline
    | .timeout => SubscriptionStatus.offline
    | .connectionError => SubscriptionStatus.offline
    | .requestError => SubscriptionStatus.offline

end Desktop

namespace Aegis

/-- Helper: a set lifetime flag short-circuits `check_access`. -/
theorem check_access_lifetime (st : Settings) (u : User)
    (sub : Option Subscription) (h : u.lifetime_license = true) :
    check_access st u sub =
      { allowed := true, balance := -1, plan := "lifetime",
        status := "lifetime", lifetimeLicense := true } := by
  simp [check_access, h]

/-- Helper: in free-tier context `check_access` is gated only by the
token balance. -/
theorem check_access_free_eq (st : Settings) (u : User)
    (sub : Option Subscription) (h : freeContext u sub) :
    check_access st u sub =
      if u.token_balance ≤ 0 then
        { allowed := false, balance := 0, plan := "free", status := "expired",
          lifetimeLicense := false,
          message := some "Free trial expired. Upgrade to continue.",
          upgradeUrl := some (st.app_url ++ "/billing") }
      else
        { allowed := true, balance := u.token_balance, plan := "free",
          status := "trialing", lifetimeLicense := false } := by
  obtain ⟨h1, h2⟩ := h
  cases sub with
  | none => simp [check_access, h1]
  | some s =>
    have hs := h2 s rfl
    simp [check_access, h1, hs]

/-- C1: `check_access` evaluates entitlement in strict precedence
order, first match wins: a lifetime user always gets allowed with plan
and status "lifetime" and balance -1 regardless of the subscription
row; else a pro-and-active subscription gets allowed with plan "pro",
status "active" and balance -1 regardless of the balance; else the free
fallback (absent subscription included) gets
plan "free", allowed exactly when the balance is positive, status
"trialing" when allowed and "expired" otherwise, and balance floored at
zero. -/
theorem check_access_strict_precedence (st : Settings) (u : User)
    (sub : Option Subscription) :
    (u.lifetime_license = true →
      check_access st u sub =
        { allowed := true, balance := -1, plan := "lifetime",
          status := "lifetime", lifetimeLicense := true }) ∧
    (u.lifetime_license = false → ∀ s, sub = some s →
      s.plan = PlanType.PRO → s.status = SubStatus.ACTIVE →
      check_access st u sub =
        { allowed := true, balance := -1, plan := "pro",
          status := "active", lifetimeLicense := false }) ∧
    (u.lifetime_license = false →
      (∀ s, sub = some s → ¬(s.plan = PlanType.PRO ∧ s.status = SubStatus.ACTIVE)) →
      (check_access st u sub).plan = "free" ∧
      (check_access st u sub).allowed = decide (0 < u.token_balance) ∧
      (check_access st u sub).status =
        (if 0 < u.token_balance then "trialing" else "expired") ∧
      (check_access st u sub).balance = max 0 u.token_balance) := by
  refine ⟨fun h => by simp [check_access, h], ?_, ?_⟩
  · intro h s hs hp hst
    subst hs
    simp [check_access, h, hp, hst]
  · intro h1 h2
    rw [check_access_free_eq st u sub ⟨h1, h2⟩]
    by_cases htb : u.token_balance ≤ 0
    · have hn : ¬ (0 < u.token_balance) := by omega
      have hm : max 0 u.token_balance = 0 := by omega
      simp [htb, hn, hm]
    · have hp : 0 < u.token_balance := by omega
      have hm : max 0 u.token_balance = u.token_balance := by omega
      simp [htb, hp, hm]

/-- Witness for C1: the three branches at concrete users — a lifetime
user with a cancelled subscription, a zero-balance pro-active user, and
a fresh free user with balance 5000 and no subscription row. -/
theorem check_access_strict_precedence_witness :
    (check_access defaultSettings
        { id := 1, email := "a@b.c", token_balance := 0,
          lifetime_license := true, stripe_customer_id := none }
        (some { user_id := 1, plan := PlanType.FREE,
                status := SubStatus.CANCELLED,
                stripe_subscription_id := none,
                current_period_start := none, current_period_end := none,
                cancel_at_period_end := false }) =
      { allowed := true, balance := -1, plan := "lifetime",
        status := "lifetime", lifetimeLicense := true }) ∧
    (check_access defaultSettings
        { id := 2, email := "a@b.c", token_balance := 0,
          lifetime_license := false, stripe_customer_id := none }
        (some { user_id := 2, plan := PlanType.PRO,
                status := SubStatus.ACTIVE,
                stripe_subscription_id := none,
                current_period_start := none, current_period_end := none,
                cancel_at_period_end := false }) =
      { allowed := true, balance := -1, plan := "pro",
        status := "active", lifetimeLicense := false }) ∧
    ((check_access defaultSettings
        { id := 3, email := "a@b.c", token_balance := 5000,
          lifetime_license := false, stripe_customer_id := none } none).plan =
      "free" ∧
     (check_access defaultSettings
        { id := 3, email := "a@b.c", token_balance := 5000,
          lifetime_license := false, stripe_customer_id := none } none).allowed =
      decide ((0 : Int) < 5000)) := by
  refine ⟨?_, ?_, ?_, ?_⟩
  · exact (check_access_strict_precedence defaultSettings
      { id := 1, email := "a@b.c", token_balance := 0,
        lifetime_license := true, stripe_customer_id := none }
      (some { user_id := 1, plan := PlanType.FREE,
              status := SubStatus.CANCELLED,
              stripe_subscription_id := none,
              current_period_start := none, current_period_end := none,
              cancel_at_period_end := false })).1 rfl
  · exact (check_access_strict_precedence defaultSettings
      { id := 2, email := "a@b.c", token_balance := 0,
        lifetime_license := false, stripe_customer_id := none }
      (some { user_id := 2, plan := PlanType.PRO,
              status := SubStatus.ACTIVE,
              stripe_subscription_id := none,
              current_period_start := none, current_period_end := none,
              cancel_at_period_end := false })).2.1 rfl _ rfl rfl rfl
  · exact ((check_access_strict_precedence defaultSettings
      { id := 3, email := "a@b.c", token_balance := 5000,
        lifetime_license := false, stripe_customer_id := none } none).2.2 rfl
      (fun s hs => Option.noConfusion hs)).1
  · exact ((check_access_strict_precedence defaultSettings
      { id := 3, email := "a@b.c", token_balance := 5000,
        lifetime_license := false, stripe_customer_id := none } none).2.2 rfl
      (fun s hs => Option.noConfusion hs)).2.1

end Aegis

namespace Aegis

/-- Helper: an access decision carrying the unlimited sentinel is an
allowed decision. -/
theorem check_access_unlimited_allowed (st : Settings) (u : User)
    (sub : Option Subscription)
    (h : (check_access st u sub).balance = -1) :
    (check_access st u sub).allowed = true := by
  by_cases hl : u.lifetime_license = true
  · rw [check_access_lifetime st u sub hl]
  · have hl2 : u.lifetime_license = false := by simpa using hl
    by_cases hpa : ∀ s, sub = some s →
        ¬(s.plan = PlanType.PRO ∧ s.status = SubStatus.ACTIVE)
    · rw [check_access_free_eq st u sub ⟨hl2, hpa⟩] at h ⊢
      by_cases htb : u.token_balance ≤ 0
      · rw [if_pos htb] at h
        simp at h
      · rw [if_neg htb]
    · push_neg at hpa
      obtain ⟨s, hs, hp⟩ := hpa
      subst hs
      simp [check_access, hl2, hp.1, hp.2]

/-- Helper: `spend_tokens` on an exhausted free-tier user fails on the
access check and changes nothing. -/
theorem spend_tokens_free_expired (st : Settings) (u : User)
    (sub : Option Subscription) (l : List TokenLedger) (a : TokenAction)
    (p : Option String) (h : freeContext u sub)
    (htb : u.token_balance ≤ 0) :
    spend_tokens st u sub l a p =
      ({ success := false, balance := 0,
         error := some "insufficient_tokens",
         message := some "Free trial expired. Upgrade to continue.",
         upgradeUrl := some (st.app_url ++ "/billing") }, u, l) := by
  have hca := check_access_free_eq st u sub h
  rw [if_pos htb] at hca
  simp [spend_tokens, hca]

/-- Helper: `spend_tokens` on a free-tier user whose balance is positive
but below the action's cost fails on the cost check and changes
nothing. -/
theorem spend_tokens_free_insufficient (st : Settings) (u : User)
    (sub : Option Subscription) (l : List TokenLedger) (a : TokenAction)
    (p : Option String) (h : freeContext u sub)
    (htb : 0 < u.token_balance) (hc : u.token_balance < getCost st a) :
    spend_tokens st u sub l a p =
      ({ success := false, balance := u.token_balance,
         error := some "insufficient_tokens",
         required := some (getCost st a),
         message := some ("This action requires " ++ toString (getCost st a) ++
           " tokens but you only have " ++ toString u.token_balance),
         upgradeUrl := some (st.app_url ++ "/billing") }, u, l) := by
  have hca := check_access_free_eq st u sub h
  rw [if_neg (by omega)] at hca
  have hb : ¬ (u.token_balance = -1) := by omega
  simp [spend_tokens, hca, hb, hc]

/-- Helper: `spend_tokens` on a free-tier user with enough balance
deducts the cost and appends the matching ledger entry. -/
theorem spend_tokens_free_success (st : Settings) (u : User)
    (sub : Option Subscription) (l : List TokenLedger) (a : TokenAction)
    (p : Option String) (h : freeContext u sub)
    (htb : 0 < u.token_balance) (hc : getCost st a ≤ u.token_balance) :
    spend_tokens st u sub l a p =
      ({ success := true, tokensUsed := some (getCost st a),
         balance := u.token_balance - getCost st a, plan := some "free" },
       { u with token_balance := u.token_balance - getCost st a },
       l ++ [{ user_id := u.id, action := a, amount := -(getCost st a),
               balance_after := u.token_balance - getCost st a,
               description := "Spent " ++ toString (getCost st a) ++
                 " tokens on " ++ a.value,
               project_id := p }]) := by
  have hca := check_access_free_eq st u sub h
  rw [if_neg (by omega)] at hca
  have hb : ¬ (u.token_balance = -1) := by omega
  have hc2 : ¬ (getCost st a > u.token_balance) := by omega
  simp [spend_tokens, hca, hb, hc2]

/-- C2: `spend_tokens` never drives the balance below zero — for every
user, starting from a non-negative balance the balance after the call
is still non-negative.  For a free-tier user whose positive balance is
below the action's cost the call fails with error
"insufficient_tokens", reports the required cost and the current
balance, and leaves the user row and the ledger
untouched; in particular the user with balance 1 spending the
5-token agent relay action fails with balance 1 and required 5, and the
balance is still 1 afterwards. -/
theorem spend_tokens_insufficient_balance_safe :
    (∀ (st : Settings) (u : User) (sub : Option Subscription)
        (l : List TokenLedger) (a : TokenAction) (p : Option String),
      0 ≤ u.token_balance →
      0 ≤ (spend_tokens st u sub l a p).2.1.token_balance) ∧
    (∀ (st : Settings) (u : User) (sub : Option Subscription)
        (l : List TokenLedger) (a : TokenAction) (p : Option String),
      freeContext u sub → 0 < u.token_balance →
      u.token_balance < getCost st a →
      spend_tokens st u sub l a p =
        ({ success := false, balance := u.token_balance,
           error := some "insufficient_tokens",
           required := some (getCost st a),
           message := some ("This action requires " ++
             toString (getCost st a) ++ " tokens but you only have " ++
             toString u.token_balance),
           upgradeUrl := some (st.app_url ++ "/billing") }, u, l)) ∧
    (spend_tokens defaultSettings
        { id := 4, email := "a@b.c", token_balance := 1,
          lifetime_license := false, stripe_customer_id := none }
        none [] TokenAction.AGENT_RELAY none =
      ({ success := false, balance := 1,
         error := some "insufficient_tokens",
         required := some 5,
         message := some "This action requires 5 tokens but you only have 1",
         upgradeUrl := some "https://aegissolutions.co.uk/billing" },
       { id := 4, email := "a@b.c", token_balance := 1,
         lifetime_license := false, stripe_customer_id := none },
       [])) := by
  refine ⟨?_, ?_, by decide⟩
  · intro st u sub l a p hnn
    by_cases hA : (check_access st u sub).allowed = true
    · by_cases hB : (check_access st u sub).balance = -1
      · simpa [spend_tokens, hA, hB] using hnn
      · by_cases hC : getCost st a > u.token_balance
        · simp only [spend_tokens, hA, hB]
          simp only [if_pos hC, if_neg hB]
          simpa using hnn
        · simp only [spend_tokens, hA, hB]
          simp only [if_neg hC, if_neg hB]
          simp only [not_true_eq_false, if_false]
          omega
    · simpa [spend_tokens, hA] using hnn
  · exact fun st u sub l a p h h1 h2 =>
      spend_tokens_free_insufficient st u sub l a p h h1 h2

/-- Witness for C2: a free user with balance 3 and the 10-token context
sync action hits the insufficient-balance failure with state
unchanged. -/
theorem spend_tokens_insufficient_balance_safe_witness :
    freeContext
      { id := 5, email := "w@b.c", token_balance := 3,
        lifetime_license := false, stripe_customer_id := none } none ∧
    (0 : Int) < 3 ∧
    (3 : Int) < getCost defaultSettings TokenAction.CONTEXT_SYNC ∧
    spend_tokens defaultSettings
        { id := 5, email := "w@b.c", token_balance := 3,
          lifetime_license := false, stripe_customer_id := none }
        none [] TokenAction.CONTEXT_SYNC none =
      ({ success := false, balance := 3,
         error := some "insufficient_tokens",
         required := some 10,
         message := some "This action requires 10 tokens but you only have 3",
         upgradeUrl := some "https://aegissolutions.co.uk/billing" },
       { id := 5, email := "w@b.c", token_balance := 3,
         lifetime_license := false, stripe_customer_id := none },
       []) := by
  refine ⟨⟨rfl, fun s hs => Option.noConfusion hs⟩, by decide, by decide, ?_⟩
  have := spend_tokens_insufficient_balance_safe.2.1 defaultSettings
    { id := 5, email := "w@b.c", token_balance := 3,
      lifetime_license := false, stripe_customer_id := none }
    none [] TokenAction.CONTEXT_SYNC none
    ⟨rfl, fun s hs => Option.noConfusion hs⟩ (by decide) (by decide)
  simpa using this

/-- C7: when the access decision is the unlimited sentinel (balance
equal to -1, i.e. a lifetime license or an active pro subscription),
`spend_tokens` succeeds with zero tokens used, leaves the user row
unchanged and writes no ledger entry, for every action. -/
theorem spend_tokens_unlimited_not_metered (st : Settings) (u : User)
    (sub : Option Subscription) (l : List TokenLedger) (a : TokenAction)
    (p : Option String) (h : (check_access st u sub).balance = -1) :
    spend_tokens st u sub l a p =
      ({ success := true, tokensUsed := some 0, balance := -1,
         plan := some (check_access st u sub).plan }, u, l) := by
  have hA := check_access_unlimited_allowed st u sub h
  simp [spend_tokens, hA, h]

/-- Witness for C7: a lifetime user with zero stored balance spends the
100-token vibe check action without being metered. -/
theorem spend_tokens_unlimited_not_metered_witness :
    (check_access defaultSettings
        { id := 6, email := "l@b.c", token_balance := 0,
          lifetime_license := true, stripe_customer_id := none }
        none).balance = -1 ∧
    spend_tokens defaultSettings
        { id := 6, email := "l@b.c", token_balance := 0,
          lifetime_license := true, stripe_customer_id := none }
        none [] TokenAction.VIBE_CHECK none =
      ({ success := true, tokensUsed := some 0, balance := -1,
         plan := some "lifetime" },
       { id := 6, email := "l@b.c", token_balance := 0,
         lifetime_license := true, stripe_customer_id := none },
       []) := by
  refine ⟨by decide, ?_⟩
  have := spend_tokens_unlimited_not_metered defaultSettings
    { id := 6, email := "l@b.c", token_balance := 0,
      lifetime_license := true, stripe_customer_id := none }
    none [] TokenAction.VIBE_CHECK none (by decide)
  simpa using this

end Aegis

namespace Aegis

/-- Helper: appending an entry makes it the most recent one. -/
theorem lastBalanceAfter_append (b : Int) (l : List TokenLedger)
    (e : TokenLedger) : lastBalanceAfter b (l ++ [e]) = e.balance_after := by
  simp [lastBalanceAfter]

/-- Helper: the most recent balance after a cons is measured from the
head's `balance_after`. -/
theorem lastBalanceAfter_cons (b : Int) (hd : TokenLedger)
    (tl : List TokenLedger) :
    lastBalanceAfter b (hd :: tl) = lastBalanceAfter hd.balance_after tl := by
  cases tl with
  | nil => rfl
  | cons x xs =>
    simp only [lastBalanceAfter, List.getLast?_cons_cons]
    rw [List.getLast?_eq_getLast_of_ne_nil (List.cons_ne_nil x xs)]
    rfl

/-- Helper: for a non-empty ledger `lastBalanceAfter` is the last
entry's `balance_after`. -/
theorem lastBalanceAfter_eq_getLast (b : Int) (l : List TokenLedger)
    (h : l ≠ []) :
    lastBalanceAfter b l = (l.getLast h).balance_after := by
  simp [lastBalanceAfter, List.getLast?_eq_getLast_of_ne_nil h]

/-- Helper: a running sum stays a running sum when an entry recording
the correct next balance is appended. -/
theorem runningFrom_append (e : TokenLedger) :
    ∀ (b : Int) (l : List TokenLedger), runningFrom b l →
      e.balance_after = lastBalanceAfter b l + e.amount →
      runningFrom b (l ++ [e]) := by
  intro b l
  induction l generalizing b with
  | nil =>
    intro _ he
    exact ⟨by simpa [lastBalanceAfter] using he, trivial⟩
  | cons hd tl ih =>
    intro hr he
    rw [lastBalanceAfter_cons] at he
    exact ⟨hr.1, ih hd.balance_after hr.2 he⟩

/-- Helper: a running sum has consistent adjacent entries. -/
theorem runningFrom_chainConsistent (l : List TokenLedger) :
    ∀ b, runningFrom b l → chainConsistent l := by
  induction l with
  | nil => intro b _; simp [chainConsistent]
  | cons hd tl ih =>
    intro b hr
    cases tl with
    | nil => simp [chainConsistent]
    | cons x xs =>
      exact List.chain'_cons.mpr ⟨hr.2.1, ih hd.balance_after hr.2⟩

/-- Helper: one `spend_tokens` call preserves the running-sum shape of
the ledger and keeps the most recent `balance_after` equal to the user's
balance, in every entitlement context. -/
theorem spend_tokens_running_step (st : Settings) (u : User)
    (sub : Option Subscription) (l : List TokenLedger) (a : TokenAction)
    (p : Option String) (b : Int) (hr : runningFrom b l)
    (hlast : lastBalanceAfter b l = u.token_balance) :
    runningFrom b (spend_tokens st u sub l a p).2.2 ∧
    lastBalanceAfter b (spend_tokens st u sub l a p).2.2 =
      (spend_tokens st u sub l a p).2.1.token_balance := by
  by_cases hA : (check_access st u sub).allowed = true
  · by_cases hB : (check_access st u sub).balance = -1
    · simp only [spend_tokens, hA, hB]
      simpa using ⟨hr, hlast⟩
    · by_cases hC : getCost st a > u.token_balance
      · simp only [spend_tokens, hA, hB]
        simp only [if_pos hC, if_neg hB]
        simpa using ⟨hr, hlast⟩
      · simp only [spend_tokens, hA, hB]
        simp only [if_neg hC, if_neg hB]
        simp only [not_true, if_neg, ite_false, ite_true, if_pos]
        constructor
        · apply runningFrom_append _ b _ hr
          simp [hlast]
          ring
        · simp [lastBalanceAfter_append]
  · simp only [spend_tokens, hA]
    simpa using ⟨hr, hlast⟩

end Aegis

namespace Aegis

/-- Helper: one `spend_tokens` call in free-tier context deducts exactly
what the result reports for a successful call and nothing for a failed
one, keeps the most recent `balance_after` equal to the balance, and
stays in free-tier context. -/
theorem spend_tokens_free_step (st : Settings) (u : User)
    (sub : Option Subscription) (l : List TokenLedger) (a : TokenAction)
    (p : Option String) (h : freeContext u sub) (b : Int)
    (hlast : lastBalanceAfter b l = u.token_balance) :
    (spend_tokens st u sub l a p).2.1.token_balance =
      u.token_balance -
        (if (spend_tokens st u sub l a p).1.success = true then
          (spend_tokens st u sub l a p).1.tokensUsed.getD 0 else 0) ∧
    lastBalanceAfter b (spend_tokens st u sub l a p).2.2 =
      (spend_tokens st u sub l a p).2.1.token_balance ∧
    freeContext (spend_tokens st u sub l a p).2.1 sub := by
  by_cases htb : u.token_balance ≤ 0
  · rw [spend_tokens_free_expired st u sub l a p h htb]
    exact ⟨by simp, hlast, h.1, h.2⟩
  · by_cases hc : getCost st a ≤ u.token_balance
    · rw [spend_tokens_free_success st u sub l a p h (by omega) hc]
      refine ⟨by simp, ?_, h.1, h.2⟩
      rw [lastBalanceAfter_append]
    · rw [spend_tokens_free_insufficient st u sub l a p h (by omega) (by omega)]
      exact ⟨by simp, hlast, h.1, h.2⟩

/-- Helper: running a sequence of spends in free-tier context deducts
exactly the reported total of the successful calls and keeps the most
recent `balance_after` equal to the balance. -/
theorem spendMany_free_inv (st : Settings) (sub : Option Subscription)
    (b : Int) (ops : List (TokenAction × Option String)) :
    ∀ (u : User) (l : List TokenLedger), freeContext u sub →
      lastBalanceAfter b l = u.token_balance →
      (spendMany st sub u l ops).1.token_balance =
        u.token_balance - spentTotal (spendMany st sub u l ops).2.2 ∧
      lastBalanceAfter b (spendMany st sub u l ops).2.1 =
        (spendMany st sub u l ops).1.token_balance ∧
      freeContext (spendMany st sub u l ops).1 sub := by
  induction ops with
  | nil =>
    intro u l h hlast
    simp only [spendMany, spentTotal]
    exact ⟨by ring, hlast, h.1, h.2⟩
  | cons hdop tlops ih =>
    obtain ⟨a, p⟩ := hdop
    intro u l h hlast
    obtain ⟨h1, h2, h3⟩ := spend_tokens_free_step st u sub l a p h b hlast
    obtain ⟨g1, g2, g3⟩ := ih (spend_tokens st u sub l a p).2.1
      (spend_tokens st u sub l a p).2.2 h3 h2
    simp only [spendMany, spentTotal]
    refine ⟨?_, g2, g3⟩
    omega

/-- C3: a successful metered spend sets the balance to the old balance
minus the action's cost and appends exactly one ledger entry with
amount equal to minus the cost and `balance_after` equal to the new
balance, both in the one committed state; consequently any sequence of
spend calls on one user starting from an empty ledger ends with the
balance equal to the initial balance minus the total cost of the
successful spends, and the latest ledger entry records exactly that
balance. -/
theorem spend_tokens_deduction_and_ledger_sum :
    (∀ (st : Settings) (u : User) (sub : Option Subscription)
        (l : List TokenLedger) (a : TokenAction) (p : Option String),
      freeContext u sub → 0 < u.token_balance →
      getCost st a ≤ u.token_balance →
      spend_tokens st u sub l a p =
        ({ success := true, tokensUsed := some (getCost st a),
           balance := u.token_balance - getCost st a, plan := some "free" },
         { u with token_balance := u.token_balance - getCost st a },
         l ++ [{ user_id := u.id, action := a, amount := -(getCost st a),
                 balance_after := u.token_balance - getCost st a,
                 description := "Spent " ++ toString (getCost st a) ++
                   " tokens on " ++ a.value,
                 project_id := p }])) ∧
    (∀ (st : Settings) (sub : Option Subscription) (u : User)
        (ops : List (TokenAction × Option String)),
      freeContext u sub →
      (spendMany st sub u [] ops).1.token_balance =
        u.token_balance - spentTotal (spendMany st sub u [] ops).2.2 ∧
      ∀ hne : (spendMany st sub u [] ops).2.1 ≠ [],
        ((spendMany st sub u [] ops).2.1.getLast hne).balance_after =
          (spendMany st sub u [] ops).1.token_balance) := by
  constructor
  · exact spend_tokens_free_success
  · intro st sub u ops h
    obtain ⟨g1, g2, _⟩ := spendMany_free_inv st sub u.token_balance ops u [] h rfl
    refine ⟨g1, fun hne => ?_⟩
    rw [← lastBalanceAfter_eq_getLast u.token_balance _ hne, g2]

/-- Witness for C3: a fresh free user with balance 5000 spending the
100-token vibe check once, and a two-spend sequence (vibe check then
context sync) ending at balance 4890 with the last entry recording
4890. -/
theorem spend_tokens_deduction_and_ledger_sum_witness :
    (spend_tokens defaultSettings
        { id := 7, email := "f@b.c", token_balance := 5000,
          lifetime_license := false, stripe_customer_id := none }
        none [] TokenAction.VIBE_CHECK none =
      ({ success := true, tokensUsed := some 100, balance := 4900,
         plan := some "free" },
       { id := 7, email := "f@b.c", token_balance := 4900,
         lifetime_license := false, stripe_customer_id := none },
       [{ user_id := 7, action := TokenAction.VIBE_CHECK, amount := -100,
          balance_after := 4900,
          description := "Spent 100 tokens on vibe_check",
          project_id := none }])) ∧
    ((spendMany defaultSettings none
        { id := 7, email := "f@b.c", token_balance := 5000,
          lifetime_license := false, stripe_customer_id := none } []
        [(TokenAction.VIBE_CHECK, none),
         (TokenAction.CONTEXT_SYNC, none)]).1.token_balance =
      5000 - spentTotal (spendMany defaultSettings none
        { id := 7, email := "f@b.c", token_balance := 5000,
          lifetime_license := false, stripe_customer_id := none } []
        [(TokenAction.VIBE_CHECK, none),
         (TokenAction.CONTEXT_SYNC, none)]).2.2 ∧
     ((spendMany defaultSettings none
        { id := 7, email := "f@b.c", token_balance := 5000,
          lifetime_license := false, stripe_customer_id := none } []
        [(TokenAction.VIBE_CHECK, none),
         (TokenAction.CONTEXT_SYNC, none)]).2.1.getLast
          (by decide)).balance_after =
      (spendMany defaultSettings none
        { id := 7, email := "f@b.c", token_balance := 5000,
          lifetime_license := false, stripe_customer_id := none } []
        [(TokenAction.VIBE_CHECK, none),
         (TokenAction.CONTEXT_SYNC, none)]).1.token_balance) := by
  refine ⟨?_, ?_, ?_⟩
  · have := spend_tokens_deduction_and_ledger_sum.1 defaultSettings
      { id := 7, email := "f@b.c", token_balance := 5000,
        lifetime_license := false, stripe_customer_id := none }
      none [] TokenAction.VIBE_CHECK none
      ⟨rfl, fun s hs => Option.noConfusion hs⟩ (by decide) (by decide)
    simpa using this
  · exact (spend_tokens_deduction_and_ledger_sum.2 defaultSettings none
      { id := 7, email := "f@b.c", token_balance := 5000,
        lifetime_license := false, stripe_customer_id := none }
      [(TokenAction.VIBE_CHECK, none), (TokenAction.CONTEXT_SYNC, none)]
      ⟨rfl, fun s hs => Option.noConfusion hs⟩).1
  · exact (spend_tokens_deduction_and_ledger_sum.2 defaultSettings none
      { id := 7, email := "f@b.c", token_balance := 5000,
        lifetime_license := false, stripe_customer_id := none }
      [(TokenAction.VIBE_CHECK, none), (TokenAction.CONTEXT_SYNC, none)]
      ⟨rfl, fun s hs => Option.noConfusion hs⟩).2 (by decide)

end Aegis

namespace Aegis

/-- Helper: one `credit_tokens` call preserves the running-sum shape of
the ledger and keeps the most recent `balance_after` equal to the user's
balance. -/
theorem credit_tokens_running_step (u : User) (l : List TokenLedger)
    (amt : Int) (a : TokenAction) (d : Option String) (b : Int)
    (hr : runningFrom b l)
    (hlast : lastBalanceAfter b l = u.token_balance) :
    runningFrom b (credit_tokens u l amt a d).2.2 ∧
    lastBalanceAfter b (credit_tokens u l amt a d).2.2 =
      (credit_tokens u l amt a d).2.1.token_balance := by
  constructor
  · simp only [credit_tokens]
    apply runningFrom_append _ b _ hr
    simp [hlast]
  · simp only [credit_tokens]
    rw [lastBalanceAfter_append]

/-- Helper: any sequence of spend and credit operations keeps the ledger
a running sum whose most recent `balance_after` is the user's balance. -/
theorem runOps_running_inv (st : Settings) (sub : Option Subscription)
    (b : Int) (ops : List LedgerOp) :
    ∀ (u : User) (l : List TokenLedger), runningFrom b l →
      lastBalanceAfter b l = u.token_balance →
      runningFrom b (runOps st sub u l ops).2 ∧
      lastBalanceAfter b (runOps st sub u l ops).2 =
        (runOps st sub u l ops).1.token_balance := by
  induction ops with
  | nil =>
    intro u l hr hlast
    simpa [runOps] using ⟨hr, hlast⟩
  | cons op rest ih =>
    intro u l hr hlast
    cases op with
    | spendOp a p =>
      obtain ⟨g1, g2⟩ := spend_tokens_running_step st u sub l a p b hr hlast
      simpa [runOps] using ih _ _ g1 g2
    | creditOp amt a d =>
      obtain ⟨g1, g2⟩ := credit_tokens_running_step u l amt a d b hr hlast
      simpa [runOps] using ih _ _ g1 g2

/-- C5: every sequence of `spend_tokens` and `credit_tokens` operations
on one user starting from an empty ledger leaves the ledger with
consistent adjacent entries (each entry's `balance_after` is the
previous entry's `balance_after` plus this entry's `amount`) and, when
the ledger is non-empty, the most recent entry's `balance_after` equals
the user's committed `token_balance`. -/
theorem ledger_running_sum_invariant (st : Settings)
    (sub : Option Subscription) (u : User) (ops : List LedgerOp) :
    chainConsistent (runOps st sub u [] ops).2 ∧
    ∀ hne : (runOps st sub u [] ops).2 ≠ [],
      ((runOps st sub u [] ops).2.getLast hne).balance_after =
        (runOps st sub u [] ops).1.token_balance := by
  obtain ⟨g1, g2⟩ := runOps_running_inv st sub u.token_balance ops u []
    trivial rfl
  refine ⟨runningFrom_chainConsistent _ _ g1, fun hne => ?_⟩
  rw [← lastBalanceAfter_eq_getLast u.token_balance _ hne, g2]

/-- Witness for C5: the round-trip scenario — a user at balance 0 is
credited 100 and then spends the 100-token vibe check, leaving two
entries with `balance_after` 100 and 0 and the final entry matching the
final balance. -/
theorem ledger_running_sum_invariant_witness :
    chainConsistent (runOps defaultSettings none
      { id := 8, email := "s@b.c", token_balance := 0,
        lifetime_license := false, stripe_customer_id := none } []
      [LedgerOp.creditOp 100 TokenAction.CREDIT none,
       LedgerOp.spendOp TokenAction.VIBE_CHECK none]).2 ∧
    ((runOps defaultSettings none
      { id := 8, email := "s@b.c", token_balance := 0,
        lifetime_license := false, stripe_customer_id := none } []
      [LedgerOp.creditOp 100 TokenAction.CREDIT none,
       LedgerOp.spendOp TokenAction.VIBE_CHECK none]).2.getLast
        (by decide)).balance_after =
      (runOps defaultSettings none
        { id := 8, email := "s@b.c", token_balance := 0,
          lifetime_license := false, stripe_customer_id := none } []
        [LedgerOp.creditOp 100 TokenAction.CREDIT none,
         LedgerOp.spendOp TokenAction.VIBE_CHECK none]).1.token_balance :=
  ⟨(ledger_running_sum_invariant defaultSettings none
      { id := 8, email := "s@b.c", token_balance := 0,
        lifetime_license := false, stripe_customer_id := none }
      [LedgerOp.creditOp 100 TokenAction.CREDIT none,
       LedgerOp.spendOp TokenAction.VIBE_CHECK none]).1,
   (ledger_running_sum_invariant defaultSettings none
      { id := 8, email := "s@b.c", token_balance := 0,
        lifetime_license := false, stripe_customer_id := none }
      [LedgerOp.creditOp 100 TokenAction.CREDIT none,
       LedgerOp.spendOp TokenAction.VIBE_CHECK none]).2 (by decide)⟩

end Aegis

namespace Aegis

/-- C6: handling a checkout-completed event is idempotent — applying
the same event twice leaves exactly the state (user lifetime flag,
subscription plan, status, billing reference, period dates) that one
application produces, for every event and starting state. -/
theorem handle_checkout_completed_idempotent (ev : CheckoutSession)
    (state : Option User × Option Subscription) :
    handle_checkout_completed ev (handle_checkout_completed ev state) =
      handle_checkout_completed ev state := by
  obtain ⟨ou, os⟩ := state
  by_cases h0 : ev.user_id = 0
  · simp [handle_checkout_completed, h0]
  · cases ou with
    | none => simp [handle_checkout_completed, h0]
    | some user =>
      by_cases hp : ev.plan = "lifetime"
      · simp [handle_checkout_completed, h0, hp]
      · by_cases ht : optStrTruthy ev.subscription = true
        · simp [handle_checkout_completed, h0, hp, ht]
        · simp [handle_checkout_completed, h0, hp, ht]

/-- C8: `handle_subscription_updated` maps the provider status string
through the fixed table — "active" to active, "trialing" to trialing,
"canceled" to cancelled, and "past_due", "unpaid" and every other
string to expired; in particular a "past_due" event leaves the local
status expired. -/
theorem subscription_updated_status_table :
    (∀ (ev : StripeSubEvent) (s : Subscription),
      handle_subscription_updated ev (some s) =
        some { s with
                 status := statusMap ev.status,
                 current_period_start := some ev.current_period_start,
                 current_period_end := some ev.current_period_end,
                 cancel_at_period_end := ev.cancel_at_period_end }) ∧
    statusMap "active" = SubStatus.ACTIVE ∧
    statusMap "trialing" = SubStatus.TRIALING ∧
    statusMap "canceled" = SubStatus.CANCELLED ∧
    statusMap "past_due" = SubStatus.EXPIRED ∧
    statusMap "unpaid" = SubStatus.EXPIRED ∧
    (∀ pv : String,
      pv ∉ (["active", "trialing", "canceled", "past_due", "unpaid"] :
        List String) →
      statusMap pv = SubStatus.EXPIRED) ∧
    (∀ (ev : StripeSubEvent) (s : Subscription), ev.status = "past_due" →
      (handle_subscription_updated ev (some s)).map Subscription.status =
        some SubStatus.EXPIRED) := by
  refine ⟨fun ev s => rfl, rfl, rfl, rfl, rfl, rfl, ?_, ?_⟩
  · intro pv hpv
    simp only [List.mem_cons, List.mem_singleton, not_or] at hpv
    obtain ⟨h1, h2, h3, h4, h5⟩ := hpv
    simp [statusMap, h1, h2, h3, h4, h5]
  · intro ev s hst
    simp [handle_subscription_updated, hst, statusMap]

/-- Witness for C8: an unrecognized provider status "incomplete" maps
to expired, and a concrete "past_due" update event on a pro-active row
lands on expired. -/
theorem subscription_updated_status_table_witness :
    statusMap "incomplete" = SubStatus.EXPIRED ∧
    (handle_subscription_updated
        { id := "sub_1", status := "past_due", current_period_start := 10,
          current_period_end := 20, cancel_at_period_end := false }
        (some { user_id := 2, plan := PlanType.PRO,
                status := SubStatus.ACTIVE,
                stripe_subscription_id := some "sub_1",
                current_period_start := none, current_period_end := none,
                cancel_at_period_end := false })).map Subscription.status =
      some SubStatus.EXPIRED :=
  ⟨subscription_updated_status_table.2.2.2.2.2.2.1 "incomplete" (by decide),
   subscription_updated_status_table.2.2.2.2.2.2.2
     { id := "sub_1", status := "past_due", current_period_start := 10,
       current_period_end := 20, cancel_at_period_end := false }
     { user_id := 2, plan := PlanType.PRO, status := SubStatus.ACTIVE,
       stripe_subscription_id := some "sub_1",
       current_period_start := none, current_period_end := none,
       cancel_at_period_end := false } rfl⟩

end Aegis

namespace Aegis

/-- C9: the four actions with no configured cost are exactly credit,
debit, signup_bonus and purchase; the spend endpoint's validation
accepts every enum action string; and for an allowed free-tier user a
spend of an uncosted action succeeds with zero tokens used, leaves the
balance unchanged, and still appends one ledger entry with amount 0 and
`balance_after` equal to the unchanged balance. -/
theorem uncosted_actions_spend_zero :
    (∀ (st : Settings) (a : TokenAction),
      COSTS st a = none ↔
        (a = TokenAction.CREDIT ∨ a = TokenAction.DEBIT ∨
         a = TokenAction.SIGNUP_BONUS ∨ a = TokenAction.PURCHASE)) ∧
    (∀ a : TokenAction, parseAction a.value = some a) ∧
    (∀ (st : Settings) (u : User) (sub : Option Subscription)
        (l : List TokenLedger) (a : TokenAction) (p : Option String),
      freeContext u sub → 0 < u.token_balance → COSTS st a = none →
      spend_tokens st u sub l a p =
        ({ success := true, tokensUsed := some 0,
           balance := u.token_balance, plan := some "free" },
         u,
         l ++ [{ user_id := u.id, action := a, amount := 0,
                 balance_after := u.token_balance,
                 description := "Spent " ++ toString (0 : Int) ++
                   " tokens on " ++ a.value,
                 project_id := p }])) := by
  refine ⟨?_, ?_, ?_⟩
  · intro st a
    cases a <;> simp [COSTS]
  · intro a
    cases a <;> rfl
  · intro st u sub l a p h htb hcost
    have hc : getCost st a = 0 := by simp [getCost, hcost]
    have := spend_tokens_free_success st u sub l a p h htb (by omega)
    rw [this, hc]
    simp

/-- Witness for C9: a free user with balance 5000 spending the uncosted
"credit" action keeps balance 5000 and gains a zero-amount entry. -/
theorem uncosted_actions_spend_zero_witness :
    COSTS defaultSettings TokenAction.CREDIT = none ∧
    parseAction "credit" = some TokenAction.CREDIT ∧
    spend_tokens defaultSettings
        { id := 9, email := "c@b.c", token_balance := 5000,
          lifetime_license := false, stripe_customer_id := none }
        none [] TokenAction.CREDIT none =
      ({ success := true, tokensUsed := some 0, balance := 5000,
         plan := some "free" },
       { id := 9, email := "c@b.c", token_balance := 5000,
         lifetime_license := false, stripe_customer_id := none },
       [{ user_id := 9, action := TokenAction.CREDIT, amount := 0,
          balance_after := 5000,
          description := "Spent 0 tokens on credit",
          project_id := none }]) := by
  refine ⟨rfl, uncosted_actions_spend_zero.2.1 TokenAction.CREDIT, ?_⟩
  have := uncosted_actions_spend_zero.2.2 defaultSettings
    { id := 9, email := "c@b.c", token_balance := 5000,
      lifetime_license := false, stripe_customer_id := none }
    none [] TokenAction.CREDIT none
    ⟨rfl, fun s hs => Option.noConfusion hs⟩ (by decide) rfl
  simpa using this

/-- C10: `credit_tokens` performs no validation of its amount — for
every integer amount, zero and negative included, it adds the amount to
the balance and writes one ledger entry with that signed amount and the
resulting `balance_after`; a negative amount therefore drives the
balance below zero from a zero start. -/
theorem credit_tokens_unvalidated_amount :
    (∀ (u : User) (l : List TokenLedger) (amount : Int) (a : TokenAction)
        (d : Option String),
      credit_tokens u l amount a d =
        ({ success := true, tokensAdded := amount,
           balance := u.token_balance + amount },
         { u with token_balance := u.token_balance + amount },
         l ++ [{ user_id := u.id, action := a, amount := amount,
                 balance_after := u.token_balance + amount,
                 description := d.getD
                   ("Credited " ++ toString amount ++ " tokens"),
                 project_id := none }])) ∧
    ((credit_tokens
        { id := 10, email := "n@b.c", token_balance := 0,
          lifetime_license := false, stripe_customer_id := none }
        [] (-5) TokenAction.DEBIT none).2.1.token_balance = -5 ∧
     (-5 : Int) < 0) := by
  exact ⟨fun u l amount a d => rfl, by decide, by decide⟩

end Aegis

namespace Desktop

/-- C4 evaluation: on a configured user key, every caught transport
exception (timeout, connection error, request error) and every
unexpected HTTP status code produce exactly the `offline` status, which
is distinct from the explicit expired status (valid flag set, state
UNKNOWN rather than EXPIRED) — but the `can_use_app` gate on that
offline status is `false` (lifetime flag off, state UNKNOWN, plan FREE
with zero balance), so the client's gate does not permit app use on the
offline fallback even though the factory's own documentation says it
allows limited use. -/
theorem offline_fallback_gate_denies :
    check_status_sync (some "key") TransportOutcome.timeout =
      SubscriptionStatus.offline ∧
    check_status_sync (some "key") TransportOutcome.connectionError =
      SubscriptionStatus.offline ∧
    check_status_sync (some "key") TransportOutcome.requestError =
      SubscriptionStatus.offline ∧
    (∀ body : StatusBody,
      check_status_sync (some "key")
        (TransportOutcome.response 500 true body) =
      SubscriptionStatus.offline) ∧
    SubscriptionStatus.offline.state ≠ SubscriptionState.EXPIRED ∧
    SubscriptionStatus.offline.is_valid = true ∧
    SubscriptionStatus.offline.can_use_app = false := by
  refine ⟨by decide, by decide, by decide, ?_, by decide, rfl, by decide⟩
  intro body
  simp [check_status_sync, Aegis.optStrTruthy, SubscriptionStatus.offline]

end Desktop
